import Mathlib

/-!
Verification of the Weather Pit simulation core.

Shallow embedding of the simulation, audio and weather-mapping code of the
repository (WeatherPit.js, WeatherBall.js, AudioEngine.js,
services/weatherService.js) as Lean definitions, followed by theorems
settling the specified properties.  Physical quantities are modelled in
exact rational arithmetic; frequencies, which involve the irrational
factor 2 ^ (1/12), are modelled over the reals.
-/

/-- Three-component vector over the rationals, modelling THREE.Vector3. -/
structure Vec3 where
  x : ℚ
  y : ℚ
  z : ℚ
  deriving DecidableEq, Repr

instance : Add Vec3 := ⟨fun a b => ⟨a.x + b.x, a.y + b.y, a.z + b.z⟩⟩

instance : Sub Vec3 := ⟨fun a b => ⟨a.x - b.x, a.y - b.y, a.z - b.z⟩⟩

instance : SMul ℚ Vec3 := ⟨fun c a => ⟨c * a.x, c * a.y, c * a.z⟩⟩

@[simp]
theorem Vec3.add_x (a b : Vec3) : (a + b).x = a.x + b.x := rfl

@[simp]
theorem Vec3.add_y (a b : Vec3) : (a + b).y = a.y + b.y := rfl

@[simp]
theorem Vec3.add_z (a b : Vec3) : (a + b).z = a.z + b.z := rfl

@[simp]
theorem Vec3.sub_x (a b : Vec3) : (a - b).x = a.x - b.x := rfl

@[simp]
theorem Vec3.sub_y (a b : Vec3) : (a - b).y = a.y - b.y := rfl

@[simp]
theorem Vec3.sub_z (a b : Vec3) : (a - b).z = a.z - b.z := rfl

@[simp]
theorem Vec3.smul_x (c : ℚ) (a : Vec3) : (c • a).x = c * a.x := rfl

@[simp]
theorem Vec3.smul_y (c : ℚ) (a : Vec3) : (c • a).y = c * a.y := rfl

@[simp]
theorem Vec3.smul_z (c : ℚ) (a : Vec3) : (c • a).z = c * a.z := rfl

/-- Dot product of two vectors, modelling THREE.Vector3.dot. -/
def Vec3.dot (a b : Vec3) : ℚ := a.x * b.x + a.y * b.y + a.z * b.z

@[simp]
theorem Vec3.dot_def (a b : Vec3) :
    Vec3.dot a b = a.x * b.x + a.y * b.y + a.z * b.z := rfl

/-- Weather condition reported by the weather service
(`data.weather[0].main` in weatherService.js). -/
inductive Condition where
  | Clear
  | Clouds
  | Rain
  | Drizzle
  | Snow
  | Other
  deriving DecidableEq, Repr

/-- Precipitation kind attached to the processed weather record. -/
inductive PrecipType where
  | none
  | rain
  | snow
  deriving DecidableEq, Repr

/-- Processed weather record, as produced by `processWeatherData` in
services/weatherService.js and consumed by the simulation. -/
structure Weather where
  temp : ℚ
  humidity : ℚ
  windSpeed : ℚ
  pressure : ℚ
  precipitation : ℚ
  cloudCover : ℚ
  condition : Condition
  precipitationType : PrecipType
  isMajorScale : Bool
  deriving DecidableEq, Repr

/-- Function `determineScale` from services/weatherService.js lines 116-125: major
scale iff the condition is in the nice list (Clear, Clouds) and the weather
is warm (temp above 59 F) or mostly clear (cloud cover below 50). -/
def determineScale (condition : Condition) (cloudCover temp : ℚ) : Bool :=
  let isNiceCondition := condition == Condition.Clear || condition == Condition.Clouds
  let isWarm := decide (59 < temp)
  let isMostlyClear := decide (cloudCover < 50)
  isNiceCondition && (isWarm || isMostlyClear)

/-- Major pentatonic semitone offsets (`this.scales.major` in
AudioEngine.js). -/
def scalesMajor : List ℕ := [0, 2, 4, 7, 9]

/-- Minor pentatonic semitone offsets (`this.scales.minor` in
AudioEngine.js). -/
def scalesMinor : List ℕ := [0, 3, 5, 7, 10]

/-- Base frequency for C3, 130.81 Hz (`this.baseFreq` in AudioEngine.js). -/
noncomputable def baseFreq : ℝ := 130.81

/-- Method `AudioEngine.getFrequency` from AudioEngine.js lines 63-78: map a note
index and scale mode to a frequency.  The index never reads out of range
since `noteIndex % 5 < 5`; the default value of `getD` is never used. -/
noncomputable def getFrequency (noteIndex : ℕ) (isMajor : Bool) : ℝ :=
  let scale := if isMajor then scalesMajor else scalesMinor
  let octave := noteIndex / 5
  let scalePosition := noteIndex % 5
  let semitoneOffset := scale.getD scalePosition 0
  let totalSemitones := octave * 12 + semitoneOffset
  baseFreq * (2 : ℝ) ^ ((totalSemitones : ℝ) / 12)

/-- Method `WeatherBall.calculateSize`: size from humidity, between 0.3 and 1.5. -/
def calculateSize (humidity : ℚ) : ℚ :=
  let minSize : ℚ := 0.3
  let maxSize : ℚ := 1.5
  minSize + (humidity / 100) * (maxSize - minSize)

/-- Method `WeatherBall.calculateMass`: mass from pressure and size (volume). -/
def calculateMass (pressure size : ℚ) : ℚ :=
  let normalizedPressure := pressure / 1013
  normalizedPressure * size ^ 3

/-- Method `WeatherBall.calculateDecayRate`: base decay plus precipitation decay. -/
def calculateDecayRate (precipitation : ℚ) : ℚ :=
  let baseDecay : ℚ := 0.001
  let precipDecay : ℚ := precipitation * 0.01
  baseDecay + precipDecay

/-- One life step of `WeatherBall.update` (WeatherBall.js lines 203-204):
`life -= decayRate * dt; life = max(0, life)`. -/
def lifeUpdate (decayRate dt life : ℚ) : ℚ :=
  max 0 (life - decayRate * dt)

/-- Life of a ball after a sequence of updates with the given time deltas,
starting from the initial value `life = 1.0` set in the constructor. -/
def lifeAfter (decayRate : ℚ) (dts : List ℚ) : ℚ :=
  dts.foldl (fun life dt => lifeUpdate decayRate dt life) 1

/-- Method `WeatherBall.isAlive`: alive exactly when `life > 0`. -/
def isAlive (life : ℚ) : Bool :=
  decide (0 < life)

/-- Pit dimensions (`this.pitBounds` in WeatherPit.js is
`width 120, height 80, depth 120`). -/
structure PitBounds where
  width : ℚ
  height : ℚ
  depth : ℚ
  deriving DecidableEq, Repr

/-- The physics state of one weather ball: the fields of WeatherBall read
and written by the boundary and collision code. -/
structure Ball where
  position : Vec3
  velocity : Vec3
  size : ℚ
  mass : ℚ
  noteIndex : ℕ
  deriving DecidableEq, Repr

/-- A note trigger sent to the audio engine:
(noteIndex, isMajorScale, velocity, duration). -/
def Note : Type := ℕ × Bool × ℚ × ℚ

instance : DecidableEq Note := by
  unfold Note
  infer_instance

/-- Method `WeatherBall.checkBoundaries`, audio-enabled variant (the second
document of AudioEngine.js, lines 475-519): floor clamp and reflection with
restitution 0.8, a note trigger on a downward floor contact whose speed at
contact (`bounceVelocity = |velocity.y|`, captured before the reflection)
exceeds 0.1, then the four wall clamps and reflections, which emit no
sound.  `hasAudioEngine` models the truthiness test `this.audioEngine`. -/
def checkBoundaries (bounds : PitBounds) (hasAudioEngine isMajorScale : Bool)
    (b : Ball) : Ball × Option Note :=
  let halfWidth := bounds.width / 2
  let halfDepth := bounds.depth / 2
  let restitution : ℚ := 0.8
  let floorResult :=
    if b.position.y - b.size < 0 then
      let wasMovingDown := decide (b.velocity.y < 0)
      let bounceVelocity := |b.velocity.y|
      let bounced := { b with
        position.y := b.size,
        velocity.y := b.velocity.y * (-restitution) }
      let note :=
        if wasMovingDown && hasAudioEngine && decide ((0.1 : ℚ) < bounceVelocity) then
          some ((b.noteIndex, isMajorScale, bounceVelocity, (0.2 : ℚ)) : Note)
        else
          none
      (bounced, note)
    else
      (b, (none : Option Note))
  let b1 := floorResult.1
  let b2 :=
    if b1.position.x - b1.size < -halfWidth then
      { b1 with position.x := -halfWidth + b1.size,
                velocity.x := b1.velocity.x * (-restitution) }
    else b1
  let b3 :=
    if halfWidth < b2.position.x + b2.size then
      { b2 with position.x := halfWidth - b2.size,
                velocity.x := b2.velocity.x * (-restitution) }
    else b2
  let b4 :=
    if b3.position.z - b3.size < -halfDepth then
      { b3 with position.z := -halfDepth + b3.size,
                velocity.z := b3.velocity.z * (-restitution) }
    else b3
  let b5 :=
    if halfDepth < b4.position.z + b4.size then
      { b4 with position.z := halfDepth - b4.size,
                velocity.z := b4.velocity.z * (-restitution) }
    else b4
  (b5, floorResult.2)

/-- Method `WeatherPit.calculateSpawnInterval`: between 0.3 and 2.0 seconds,
shorter with more precipitation. -/
def calculateSpawnInterval (w : Weather) : ℚ :=
  let baseInterval : ℚ := 2.0
  let minInterval : ℚ := 0.3
  max minInterval (baseInterval - w.precipitation * 0.1)

/-- Method `WeatherPit.calculateBallsPerSpawn` (WeatherPit.js lines 184-198):
base 3, plus floor(min(precipitation * 10, 3)), plus floor(cloudCover / 60),
clamped into [3, 7]. -/
def calculateBallsPerSpawn (w : Weather) : ℤ :=
  let base : ℤ := 3
  let fromPrecipitation := ⌊min (w.precipitation * 10) 3⌋
  let fromCloudCover := ⌊w.cloudCover / 60⌋
  max 3 (min 7 (base + fromPrecipitation + fromCloudCover))

/-- Constant `this.maxBalls = 50` in the WeatherPit constructor. -/
def maxBalls : ℕ := 50

/-- The loop body of `WeatherPit.spawnBall`: repeat `n` times, and on each
iteration return early once the population reaches `maxBalls`, otherwise
append a ball whose noteIndex is the current population size mod 25.  Balls
in the pit model are represented by their noteIndex, the only
deterministically assigned constructor argument. -/
def spawnLoop : ℕ → List ℕ → List ℕ
  | 0, balls => balls
  | n + 1, balls =>
    if maxBalls ≤ balls.length then balls
    else spawnLoop n (balls ++ [balls.length % 25])

/-- Method `WeatherPit.spawnBall` (WeatherPit.js lines 203-213). -/
def spawnBall (w : Weather) (balls : List ℕ) : List ℕ :=
  spawnLoop (calculateBallsPerSpawn w).toNat balls

/-- One frame of `WeatherPit.update` as far as the population is concerned:
an optional spawn batch (the spawn timer having reached the spawn interval
is abstracted into the Boolean), then removal of the balls that died this
frame (abstracted into an arbitrary keep predicate; removal only ever
shrinks the population). -/
structure TickOp where
  spawn : Bool
  keep : ℕ → Bool

/-- Population after one frame of `WeatherPit.update`. -/
def tick (w : Weather) (op : TickOp) (balls : List ℕ) : List ℕ :=
  let afterSpawn := if op.spawn then spawnBall w balls else balls
  afterSpawn.filter op.keep

/-- Population after a sequence of frames. -/
def runTicks (w : Weather) (ops : List TickOp) (balls : List ℕ) : List ℕ :=
  ops.foldl (fun b op => tick w op b) balls

/-- The WeatherPit state touched by `updateWeather`: the ball population
(balls again represented by noteIndex), the spawn timer and interval, the
run flag, and the active weather record. -/
structure PitState where
  balls : List ℕ
  spawnTimer : ℚ
  spawnInterval : ℚ
  isRunning : Bool
  weather : Weather

/-- Method `WeatherPit.updateWeather` (WeatherPit.js lines 363-371): store the new
weather, recompute the spawn interval from it, destroy every ball and clear
the list, and reset the spawn timer; the run flag is not touched.  The
second component returns the balls that were destroyed. -/
def updateWeather (w : Weather) (s : PitState) : PitState × List ℕ :=
  ({ weather := w
     spawnInterval := calculateSpawnInterval w
     balls := []
     spawnTimer := 0
     isRunning := s.isRunning }, s.balls)

/-- Method `WeatherPit.handleCollision` (WeatherPit.js lines 237-279), physics
part.  `normal` and `dist` stand for the unit collision normal
`(ball2.position - ball1.position).normalize()` and the distance
`ball1.position.distanceTo(ball2.position)`; the theorems below relate
them to the positions by hypothesis, keeping the embedding in exact
rational arithmetic.  THREE.Vector3.multiplyScalar mutates its receiver,
so after `impulseVector = normal.multiplyScalar(impulseScalar)` the object
named `normal` already holds `impulseScalar • n`, and the separation
computed from it afterwards is `overlap • (impulseScalar • n)` rather than
`overlap • n`; the embedding reproduces that aliasing faithfully. -/
def handleCollision (normal : Vec3) (dist : ℚ) (b1 b2 : Ball) : Ball × Ball :=
  let relativeVelocity := b1.velocity - b2.velocity
  let velocityAlongNormal := Vec3.dot relativeVelocity normal
  if 0 < velocityAlongNormal then (b1, b2)
  else
    let restitution : ℚ := 0.8
    let impulse := -(1 + restitution) * velocityAlongNormal
    let totalMass := b1.mass + b2.mass
    let impulseScalar := impulse / totalMass
    let impulseVector := impulseScalar • normal
    let v1 := b1.velocity + b2.mass • impulseVector
    let v2 := b2.velocity - b1.mass • impulseVector
    let overlap := (b1.size + b2.size - dist) / 2
    let separation := overlap • impulseVector
    ({ b1 with position := b1.position - separation, velocity := v1 },
     { b2 with position := b2.position + separation, velocity := v2 })

/-- Discrete-event state of the audio side of the simulation, for the stop
and scheduled-callback behaviour.  Times are in milliseconds.  `pending`
holds the callbacks scheduled with `setTimeout` in `handleCollision`
(due time, noteIndex); `played` logs every voice actually started, with its
start time. -/
structure AudioTrace where
  isInitialized : Bool
  activeNotes : List ℕ
  pending : List (ℕ × ℕ)
  isRunning : Bool
  played : List (ℕ × ℕ)
  deriving Repr

/-- Method `AudioEngine.playNote` as an event: a no-op when not initialized
(`if (!this.isInitialized ...) return`), otherwise stops any existing voice
at the index (`this.stopNote(noteIndex)`) and starts a new one.  Nothing in
it consults the run flag of the simulation. -/
def playNote (t i : ℕ) (s : AudioTrace) : AudioTrace :=
  if s.isInitialized then
    { s with activeNotes := i :: s.activeNotes.erase i
             played := s.played ++ [(t, i)] }
  else s

/-- The audio effects of `WeatherPit.handleCollision` at time `t`: play the
note of ball2 immediately, and schedule the note of ball1 via
`setTimeout(..., 20)`, due 20 ms later.  The scheduled callback is not
recorded anywhere else; nothing holds a handle with which to cancel it. -/
def collisionNotes (t note1 note2 : ℕ) (s : AudioTrace) : AudioTrace :=
  let s1 := playNote t note2 s
  { s1 with pending := s1.pending ++ [(t + 20, note1)] }

/-- Method `WeatherPit.stop` (WeatherPit.js lines 343-349): clear the run flag,
cancel the animation frame, and `AudioEngine.stopAll` the active voices
(AudioEngine.js lines 218-222).  The pending `setTimeout` callbacks are
untouched: the code keeps no reference to them. -/
def stopPit (s : AudioTrace) : AudioTrace :=
  { s with isRunning := false, activeNotes := [] }

/-- Advance the scheduler clock to time `t`: every pending callback that
has come due runs, and each one calls `AudioEngine.playNote`
unconditionally (WeatherPit.js lines 276-278). -/
def firePending (t : ℕ) (s : AudioTrace) : AudioTrace :=
  let due := s.pending.filter (fun p => decide (p.1 ≤ t))
  let rest := s.pending.filter (fun p => decide (t < p.1))
  due.foldl (fun acc p => playNote p.1 p.2 acc) { s with pending := rest }

/-- Claim C6: the scale-mode function returns true exactly when the
condition is Clear or Clouds and either the temperature exceeds 59 F or the
cloud cover is below 50 percent; being a Lean function of exactly these
three arguments, it is pure and deterministic. -/
theorem determineScale_iff (c : Condition) (cc t : ℚ) :
    determineScale c cc t = true ↔
      (c = Condition.Clear ∨ c = Condition.Clouds) ∧ (59 < t ∨ cc < 50) := by
  simp [determineScale, or_comm]

/-- The velocity change of the impulse application: the relative velocity
along the normal changes by the combined mass times the impulse scalar
times the squared norm of the normal. -/
theorem dot_after_impulse (n v1 v2 : Vec3) (m1 m2 k : ℚ) :
    Vec3.dot ((v1 + m2 • (k • n)) - (v2 - m1 • (k • n))) n
      = Vec3.dot (v1 - v2) n + (m1 + m2) * k * Vec3.dot n n := by
  simp only [Vec3.dot_def, Vec3.add_x, Vec3.add_y, Vec3.add_z, Vec3.sub_x,
    Vec3.sub_y, Vec3.sub_z, Vec3.smul_x, Vec3.smul_y, Vec3.smul_z]
  ring

/-- Claim C1: for an overlapping pair handled by `handleCollision`, with
the unit collision normal and positive combined mass, a pair whose
relative velocity along the normal is positive (treated by the code as
already separating) is returned unchanged, and otherwise the impulse
leaves the pair with relative velocity along the normal equal to
`-0.8 * velocityAlongNormal`, which is nonnegative. -/
theorem handleCollision_velocityAlongNormal_nonneg (n : Vec3) (dist : ℚ)
    (b1 b2 : Ball) (hn : Vec3.dot n n = 1) (hm : 0 < b1.mass + b2.mass) :
    (0 < Vec3.dot (b1.velocity - b2.velocity) n →
      handleCollision n dist b1 b2 = (b1, b2)) ∧
    (Vec3.dot (b1.velocity - b2.velocity) n ≤ 0 →
      Vec3.dot ((handleCollision n dist b1 b2).1.velocity -
          (handleCollision n dist b1 b2).2.velocity) n
        = -(0.8) * Vec3.dot (b1.velocity - b2.velocity) n ∧
      0 ≤ Vec3.dot ((handleCollision n dist b1 b2).1.velocity -
          (handleCollision n dist b1 b2).2.velocity) n) := by
  have hne : b1.mass + b2.mass ≠ 0 := ne_of_gt hm
  constructor
  · intro h
    unfold handleCollision
    rw [if_pos h]
  · intro h
    have heq : Vec3.dot ((handleCollision n dist b1 b2).1.velocity -
        (handleCollision n dist b1 b2).2.velocity) n
        = -(0.8) * Vec3.dot (b1.velocity - b2.velocity) n := by
      unfold handleCollision
      rw [if_neg (not_lt.mpr h)]
      rw [dot_after_impulse, hn, mul_one]
      field_simp
      ring
    refine ⟨heq, ?_⟩
    rw [heq]
    nlinarith

/-- Witness for claim C1: a concrete head-on pair of unit balls with the
first one moving away along the negative normal direction is resolved, and
the resulting relative velocity along the normal is nonnegative. -/
theorem handleCollision_velocityAlongNormal_nonneg_witness :
    0 ≤ Vec3.dot
      ((handleCollision ⟨1, 0, 0⟩ 1 ⟨⟨0, 0, 0⟩, ⟨-1, 0, 0⟩, 1, 1, 0⟩
          ⟨⟨1, 0, 0⟩, ⟨0, 0, 0⟩, 1, 1, 1⟩).1.velocity -
        (handleCollision ⟨1, 0, 0⟩ 1 ⟨⟨0, 0, 0⟩, ⟨-1, 0, 0⟩, 1, 1, 0⟩
          ⟨⟨1, 0, 0⟩, ⟨0, 0, 0⟩, 1, 1, 1⟩).2.velocity) ⟨1, 0, 0⟩ :=
  ((handleCollision_velocityAlongNormal_nonneg ⟨1, 0, 0⟩ 1
      ⟨⟨0, 0, 0⟩, ⟨-1, 0, 0⟩, 1, 1, 0⟩ ⟨⟨1, 0, 0⟩, ⟨0, 0, 0⟩, 1, 1, 1⟩
      (by norm_num [Vec3.dot_def]) (by norm_num)).2
    (by norm_num [Vec3.dot_def])).2

/-- Claim C3 is violated by the code: two unit balls one unit apart (so
the full overlap is 1 and half of it is 1/2) are moved by 9/20 instead of
1/2, because the separation reuses the `normal` object that
`multiplyScalar` already scaled by the impulse scalar (0.9 here), and the
resolved pair is still interpenetrating: the new squared distance is
(19/10)^2 < (size1 + size2)^2 = 4. -/
theorem handleCollision_separation_bug :
    (handleCollision ⟨1, 0, 0⟩ 1 ⟨⟨0, 0, 0⟩, ⟨-1, 0, 0⟩, 1, 1, 0⟩
        ⟨⟨1, 0, 0⟩, ⟨0, 0, 0⟩, 1, 1, 1⟩).1.position.x = -(9/20) ∧
    (handleCollision ⟨1, 0, 0⟩ 1 ⟨⟨0, 0, 0⟩, ⟨-1, 0, 0⟩, 1, 1, 0⟩
        ⟨⟨1, 0, 0⟩, ⟨0, 0, 0⟩, 1, 1, 1⟩).1.position.x ≠ -(1/2) ∧
    Vec3.dot
      ((handleCollision ⟨1, 0, 0⟩ 1 ⟨⟨0, 0, 0⟩, ⟨-1, 0, 0⟩, 1, 1, 0⟩
          ⟨⟨1, 0, 0⟩, ⟨0, 0, 0⟩, 1, 1, 1⟩).2.position -
        (handleCollision ⟨1, 0, 0⟩ 1 ⟨⟨0, 0, 0⟩, ⟨-1, 0, 0⟩, 1, 1, 0⟩
          ⟨⟨1, 0, 0⟩, ⟨0, 0, 0⟩, 1, 1, 1⟩).1.position)
      ((handleCollision ⟨1, 0, 0⟩ 1 ⟨⟨0, 0, 0⟩, ⟨-1, 0, 0⟩, 1, 1, 0⟩
          ⟨⟨1, 0, 0⟩, ⟨0, 0, 0⟩, 1, 1, 1⟩).2.position -
        (handleCollision ⟨1, 0, 0⟩ 1 ⟨⟨0, 0, 0⟩, ⟨-1, 0, 0⟩, 1, 1, 0⟩
          ⟨⟨1, 0, 0⟩, ⟨0, 0, 0⟩, 1, 1, 1⟩).1.position) < (1 + 1) ^ 2 := by
  refine ⟨?_, ?_, ?_⟩ <;> norm_num [handleCollision, Vec3.dot_def]

/-- Claim C2 is violated by the code: starting from an initialized,
running audio state, a collision at t = 0 between balls with notes 3 and 4
plays note 4 at once and schedules note 3 for t = 20 ms; `stop()` is then
called (before the callback is due), which clears the run flag and
silences every active voice, yet once the scheduler reaches t = 20 the
untracked `setTimeout` callback still runs and starts the voice for
note 3: the played log gains an entry after stop and a voice is active
again in the stopped state. -/
theorem stop_leaves_pending_collision_note :
    (firePending 20 (stopPit (collisionNotes 0 3 4 ⟨true, [], [], true, []⟩))).played
        = [(0, 4), (20, 3)] ∧
    (stopPit (collisionNotes 0 3 4 ⟨true, [], [], true, []⟩)).activeNotes = [] ∧
    (firePending 20 (stopPit (collisionNotes 0 3 4 ⟨true, [], [], true, []⟩))).isRunning
        = false ∧
    (firePending 20 (stopPit (collisionNotes 0 3 4 ⟨true, [], [], true, []⟩))).activeNotes
        = [3] := by
  refine ⟨rfl, rfl, rfl, rfl⟩

/-- The spawn loop never grows the population beyond the cap. -/
theorem spawnLoop_length_le (n : ℕ) : ∀ balls : List ℕ,
    balls.length ≤ maxBalls → (spawnLoop n balls).length ≤ maxBalls := by
  induction n with
  | zero => intro balls h; simpa [spawnLoop] using h
  | succ n ih =>
    intro balls h
    rw [spawnLoop]
    split
    · exact h
    · apply ih
      simp only [List.length_append, List.length_singleton, maxBalls] at *
      omega

/-- The spawn loop only appends: entries already present keep their value. -/
theorem spawnLoop_getD_of_lt (n : ℕ) : ∀ (balls : List ℕ) (i : ℕ),
    i < balls.length → (spawnLoop n balls).getD i 0 = balls.getD i 0 := by
  induction n with
  | zero => intro balls i h; rfl
  | succ n ih =>
    intro balls i h
    rw [spawnLoop]
    split
    · rfl
    · rw [ih (balls ++ [balls.length % 25]) i (by simp; omega)]
      exact List.getD_append _ _ _ _ h

/-- Every ball appended by the spawn loop at position `i` carries
noteIndex `i % 25`: at the moment it is pushed the population size is
exactly `i`. -/
theorem spawnLoop_getD_new (n : ℕ) : ∀ (balls : List ℕ) (i : ℕ),
    balls.length ≤ i → i < (spawnLoop n balls).length →
    (spawnLoop n balls).getD i 0 = i % 25 := by
  induction n with
  | zero =>
    intro balls i hle hlt
    simp only [spawnLoop] at hlt
    omega
  | succ n ih =>
    intro balls i hle hlt
    by_cases hcap : maxBalls ≤ balls.length
    · rw [spawnLoop, if_pos hcap] at hlt ⊢
      omega
    · rw [spawnLoop, if_neg hcap] at hlt ⊢
      rcases Nat.lt_or_ge i (balls.length + 1) with hi | hi
      · have hieq : i = balls.length := by omega
        rw [spawnLoop_getD_of_lt n _ i (by simp; omega)]
        subst hieq
        rw [List.getD_append_right _ _ _ _ (le_refl _)]
        simp
      · exact ih _ i (by simp; omega) hlt

/-- One frame never grows the population beyond the cap. -/
theorem tick_length_le (w : Weather) (op : TickOp) (balls : List ℕ)
    (h : balls.length ≤ maxBalls) : (tick w op balls).length ≤ maxBalls := by
  unfold tick
  refine le_trans (List.length_filter_le _ _) ?_
  split
  · exact spawnLoop_length_le _ _ h
  · exact h

/-- A sequence of frames never grows the population beyond the cap. -/
theorem runTicks_length_le (w : Weather) (ops : List TickOp) : ∀ balls : List ℕ,
    balls.length ≤ maxBalls → (runTicks w ops balls).length ≤ maxBalls := by
  induction ops with
  | nil => intro balls h; exact h
  | cons op ops ih =>
    intro balls h
    exact ih _ (tick_length_le w op balls h)

/-- Claim C4: every spawn event requests between 3 and 7 balls, every ball
spawned when the population has size `i` receives noteIndex `i % 25`, and
starting from the empty pit no sequence of frames ever pushes the live
population above `maxBalls = 50`. -/
theorem spawn_batch_bounds_and_cap (w : Weather) :
    (3 ≤ calculateBallsPerSpawn w ∧ calculateBallsPerSpawn w ≤ 7) ∧
    (∀ (balls : List ℕ) (i : ℕ), balls.length ≤ i →
      i < (spawnBall w balls).length → (spawnBall w balls).getD i 0 = i % 25) ∧
    (∀ ops : List TickOp, (runTicks w ops []).length ≤ maxBalls) := by
  refine ⟨⟨le_max_left _ _, max_le (by norm_num) (min_le_left _ _)⟩, ?_, ?_⟩
  · intro balls i h1 h2
    exact spawnLoop_getD_new _ _ _ h1 h2
  · intro ops
    exact runTicks_length_le w ops [] (by simp [maxBalls])

/-- Witness for claim C4 at the default demo weather record: the first
ball spawned into the empty pit carries noteIndex 0, and one spawning
frame keeps the population within the cap. -/
theorem spawn_batch_bounds_and_cap_witness :
    (spawnBall ⟨68, 60, 8.9, 1013, 0.04, 50, Condition.Clouds, PrecipType.none, true⟩
        []).getD 0 0 = 0 % 25 ∧
    (runTicks ⟨68, 60, 8.9, 1013, 0.04, 50, Condition.Clouds, PrecipType.none, true⟩
        [⟨true, fun _ => true⟩] []).length ≤ maxBalls :=
  ⟨(spawn_batch_bounds_and_cap _).2.1 [] 0 (by simp)
      (by norm_num [spawnBall, calculateBallsPerSpawn, spawnLoop, maxBalls]),
   (spawn_batch_bounds_and_cap _).2.2 _⟩

/-- Claim C5: a ball in floor contact has its height clamped to its size
and its vertical velocity reflected with restitution 0.8, and exactly one
note trigger `(noteIndex, isMajorScale, speed at contact, 0.2)` is emitted
when the contact was downward with speed above 0.1, none otherwise. -/
theorem checkBoundaries_floor_contact (bounds : PitBounds) (isMajor : Bool)
    (b : Ball) (hfloor : b.position.y - b.size < 0) :
    (checkBoundaries bounds true isMajor b).1.position.y = b.size ∧
    (checkBoundaries bounds true isMajor b).1.velocity.y
        = b.velocity.y * (-(0.8 : ℚ)) ∧
    (b.velocity.y < 0 → (0.1 : ℚ) < |b.velocity.y| →
      (checkBoundaries bounds true isMajor b).2
        = some (b.noteIndex, isMajor, |b.velocity.y|, (0.2 : ℚ))) ∧
    (¬ (b.velocity.y < 0 ∧ (0.1 : ℚ) < |b.velocity.y|) →
      (checkBoundaries bounds true isMajor b).2 = none) := by
  unfold checkBoundaries
  dsimp only
  rw [if_pos hfloor]
  dsimp only
  refine ⟨?_, ?_, ?_, ?_⟩
  · split <;> split <;> split <;> split <;> rfl
  · split <;> split <;> split <;> split <;> rfl
  · intro h1 h2
    simp [h1, h2]
  · intro hc
    rcases not_and_or.mp hc with hc | hc <;> simp [hc]

/-- Witness for claim C5: a unit ball at height 1/2 falling at speed 2
gets clamped to height 1, rebounds at 8/5 upward, and emits the note
trigger with its contact speed. -/
theorem checkBoundaries_floor_contact_witness :
    (checkBoundaries ⟨120, 80, 120⟩ true true
        ⟨⟨0, 1/2, 0⟩, ⟨0, -2, 0⟩, 1, 1, 3⟩).1.position.y = (1 : ℚ) ∧
    (checkBoundaries ⟨120, 80, 120⟩ true true
        ⟨⟨0, 1/2, 0⟩, ⟨0, -2, 0⟩, 1, 1, 3⟩).1.velocity.y = (-2 : ℚ) * (-(0.8 : ℚ)) ∧
    (checkBoundaries ⟨120, 80, 120⟩ true true
        ⟨⟨0, 1/2, 0⟩, ⟨0, -2, 0⟩, 1, 1, 3⟩).2
      = some (3, true, |(-2 : ℚ)|, (0.2 : ℚ)) := by
  have h := checkBoundaries_floor_contact ⟨120, 80, 120⟩ true
    ⟨⟨0, 1/2, 0⟩, ⟨0, -2, 0⟩, 1, 1, 3⟩ (by norm_num)
  exact ⟨h.1, h.2.1, h.2.2.1 (by norm_num) (by norm_num)⟩

/-- The pentatonic offset tables are non-decreasing in the scale
position. -/
theorem pentatonic_getD_mono (m : Bool) (r1 r2 : ℕ) (h12 : r1 ≤ r2)
    (h2 : r2 < 5) :
    (if m then scalesMajor else scalesMinor).getD r1 0
      ≤ (if m then scalesMajor else scalesMinor).getD r2 0 := by
  have h1 : r1 < 5 := lt_of_le_of_lt h12 h2
  interval_cases r1 <;> interval_cases r2 <;> cases m <;>
    simp [scalesMajor, scalesMinor]

/-- Claim C7: for either scale mode, stepping the note index by 5 moves up
one octave and exactly doubles the frequency, and within a fixed octave
the frequency is non-decreasing in the note index. -/
theorem getFrequency_doubling_and_mono (m : Bool) (i j : ℕ) (hij : i ≤ j)
    (hoct : i / 5 = j / 5) :
    getFrequency (i + 5) m = 2 * getFrequency i m ∧
    getFrequency i m ≤ getFrequency j m := by
  constructor
  · unfold getFrequency
    dsimp only
    rw [Nat.add_div_right _ (by norm_num), Nat.add_mod_right]
    have hcast : ((((i / 5 + 1) * 12 +
          (if m then scalesMajor else scalesMinor).getD (i % 5) 0 : ℕ) : ℝ)) / 12
        = (((i / 5 * 12 +
          (if m then scalesMajor else scalesMinor).getD (i % 5) 0 : ℕ) : ℝ)) / 12
            + 1 := by
      push_cast
      ring
    rw [hcast, Real.rpow_add (by norm_num : (0:ℝ) < 2), Real.rpow_one]
    ring
  · unfold getFrequency
    dsimp only
    have hb : (0 : ℝ) ≤ baseFreq := by unfold baseFreq; norm_num
    apply mul_le_mul_of_nonneg_left ?_ hb
    apply Real.rpow_le_rpow_of_exponent_le (by norm_num : (1:ℝ) ≤ 2)
    have hmod : i % 5 ≤ j % 5 := by
      have di := Nat.div_add_mod i 5
      have dj := Nat.div_add_mod j 5
      omega
    have hoff := pentatonic_getD_mono m (i % 5) (j % 5) hmod
      (Nat.mod_lt _ (by norm_num))
    have hsem : i / 5 * 12 + (if m then scalesMajor else scalesMinor).getD (i % 5) 0
        ≤ j / 5 * 12 + (if m then scalesMajor else scalesMinor).getD (j % 5) 0 := by
      omega
    have hsemR : ((i / 5 * 12 +
          (if m then scalesMajor else scalesMinor).getD (i % 5) 0 : ℕ) : ℝ)
        ≤ ((j / 5 * 12 +
          (if m then scalesMajor else scalesMinor).getD (j % 5) 0 : ℕ) : ℝ) := by
      exact_mod_cast hsem
    linarith

/-- Witness for claim C7: from note 1 to note 6 the frequency doubles, and
notes 1 and 3 sit in the same octave in increasing order. -/
theorem getFrequency_doubling_and_mono_witness :
    getFrequency (1 + 5) true = 2 * getFrequency 1 true ∧
    getFrequency 1 true ≤ getFrequency 3 true :=
  getFrequency_doubling_and_mono true 1 3 (by decide) (by decide)

/-- One life step never goes negative. -/
theorem lifeUpdate_nonneg (r d l : ℚ) : 0 ≤ lifeUpdate r d l :=
  le_max_left 0 _

/-- One life step with nonnegative decay never increases life above a
nonnegative starting value. -/
theorem lifeUpdate_le_self (r d l : ℚ) (h : 0 ≤ r * d) (hl : 0 ≤ l) :
    lifeUpdate r d l ≤ l :=
  max_le hl (by linarith)

/-- Folded life stays within `[0, initial]` for nonnegative decay, deltas
and initial value. -/
theorem lifeFold_bounds (r : ℚ) (hr : 0 ≤ r) (dts : List ℚ)
    (h : ∀ d ∈ dts, 0 ≤ d) (l : ℚ) (hl : 0 ≤ l) :
    0 ≤ dts.foldl (fun life dt => lifeUpdate r dt life) l ∧
    dts.foldl (fun life dt => lifeUpdate r dt life) l ≤ l := by
  induction dts generalizing l with
  | nil => exact ⟨hl, le_refl l⟩
  | cons d ds ih =>
    simp only [List.foldl_cons]
    have hd : 0 ≤ d := h d (by simp)
    have hrd : 0 ≤ r * d := mul_nonneg hr hd
    have h1 : 0 ≤ lifeUpdate r d l := lifeUpdate_nonneg r d l
    have h2 : lifeUpdate r d l ≤ l := lifeUpdate_le_self r d l hrd hl
    have hrec := ih (fun x hx => h x (by simp [hx])) (lifeUpdate r d l) h1
    exact ⟨hrec.1, hrec.2.trans h2⟩

/-- Claim C8: with nonnegative precipitation the decay rate is strictly
positive; over any sequence of nonnegative time deltas the life value
stays in [0, 1], never increases when one more update is applied, is
clamped to exactly 0 whenever the decrement would take it at or below 0,
and `isAlive` holds exactly when life is positive. -/
theorem life_invariants (p : ℚ) (hp : 0 ≤ p) (dts : List ℚ)
    (hdts : ∀ d ∈ dts, 0 ≤ d) (d : ℚ) (hd : 0 ≤ d) :
    0 < calculateDecayRate p ∧
    0 ≤ lifeAfter (calculateDecayRate p) dts ∧
    lifeAfter (calculateDecayRate p) dts ≤ 1 ∧
    lifeAfter (calculateDecayRate p) (dts ++ [d])
        ≤ lifeAfter (calculateDecayRate p) dts ∧
    (∀ l dt : ℚ, l - calculateDecayRate p * dt ≤ 0 →
      lifeUpdate (calculateDecayRate p) dt l = 0) ∧
    (isAlive (lifeAfter (calculateDecayRate p) dts) = true ↔
      0 < lifeAfter (calculateDecayRate p) dts) := by
  have hr : 0 ≤ calculateDecayRate p := by
    unfold calculateDecayRate
    dsimp only
    nlinarith
  have hbounds := lifeFold_bounds (calculateDecayRate p) hr dts hdts 1 (by norm_num)
  refine ⟨?_, hbounds.1, hbounds.2, ?_, ?_, ?_⟩
  · unfold calculateDecayRate
    dsimp only
    nlinarith
  · unfold lifeAfter
    rw [List.foldl_append]
    exact lifeUpdate_le_self _ _ _ (mul_nonneg hr hd) hbounds.1
  · intro l dt hneg
    unfold lifeUpdate
    exact max_eq_left hneg
  · simp [isAlive]

/-- Witness for claim C8 at precipitation 1/5 and deltas 1, 2, 3. -/
theorem life_invariants_witness :
    0 < calculateDecayRate (1/5) ∧
    lifeAfter (calculateDecayRate (1/5)) [1, 2] ≤ 1 :=
  ⟨(life_invariants (1/5) (by norm_num) [1, 2] (by norm_num) 3 (by norm_num)).1,
   (life_invariants (1/5) (by norm_num) [1, 2] (by norm_num) 3
      (by norm_num)).2.2.1⟩

/-- Claim C9: updating the weather clears the ball population (every
previously live ball is destroyed and returned in the second component),
resets the spawn timer to 0, recomputes the spawn interval from the new
record, stores the new record, and leaves the run flag untouched, whatever
its state. -/
theorem updateWeather_effects (w : Weather) (s : PitState) :
    (updateWeather w s).1.balls = [] ∧
    (updateWeather w s).1.spawnTimer = 0 ∧
    (updateWeather w s).1.spawnInterval = calculateSpawnInterval w ∧
    (updateWeather w s).1.isRunning = s.isRunning ∧
    (updateWeather w s).1.weather = w ∧
    (updateWeather w s).2 = s.balls :=
  ⟨rfl, rfl, rfl, rfl, rfl, rfl⟩

/-- Claim C10: with positive pressure and nonnegative humidity every
constructed ball has size at least 0.3 and strictly positive mass, so the
combined mass of any collision pair is strictly positive and in particular
nonzero: the impulse division is well defined. -/
theorem ball_mass_positive (h1 h2 p1 p2 : ℚ) (hh1 : 0 ≤ h1) (hh2 : 0 ≤ h2)
    (hp1 : 0 < p1) (hp2 : 0 < p2) :
    (0.3 : ℚ) ≤ calculateSize h1 ∧
    0 < calculateMass p1 (calculateSize h1) ∧
    0 < calculateMass p1 (calculateSize h1) + calculateMass p2 (calculateSize h2) ∧
    calculateMass p1 (calculateSize h1) + calculateMass p2 (calculateSize h2) ≠ 0 := by
  have hsize : ∀ h : ℚ, 0 ≤ h → (0.3 : ℚ) ≤ calculateSize h := by
    intro h hh
    unfold calculateSize
    dsimp only
    nlinarith
  have hmass : ∀ p h : ℚ, 0 < p → 0 ≤ h →
      0 < calculateMass p (calculateSize h) := by
    intro p h hp hh
    have hs : (0 : ℚ) < calculateSize h :=
      lt_of_lt_of_le (by norm_num) (hsize h hh)
    unfold calculateMass
    dsimp only
    exact mul_pos (div_pos hp (by norm_num)) (pow_pos hs 3)
  have hm1 := hmass p1 h1 hp1 hh1
  have hm2 := hmass p2 h2 hp2 hh2
  exact ⟨hsize h1 hh1, hm1, by linarith, ne_of_gt (by linarith)⟩

/-- Witness for claim C10 at humidity 45 and 90, pressure 1010 and 1012. -/
theorem ball_mass_positive_witness :
    (0.3 : ℚ) ≤ calculateSize 45 ∧
    calculateMass 1010 (calculateSize 45) + calculateMass 1012 (calculateSize 90) ≠ 0 :=
  ⟨(ball_mass_positive 45 90 1010 1012 (by norm_num) (by norm_num) (by norm_num)
      (by norm_num)).1,
   (ball_mass_positive 45 90 1010 1012 (by norm_num) (by norm_num) (by norm_num)
      (by norm_num)).2.2.2⟩

